import Mathlib

/-!
Shallow embedding of the k8s-io benchmark tool (Go) in Lean 4.

Covered source files:
  pkg/workloads/fio/results.go   (ParseFIOResults, ExtractResultSummaries,
                                  PrintResultsTable, ExportResultsToCSV)
  pkg/kubernetes/client.go       (isTransientError, WaitForPodsReady,
                                  WaitForJobCompletion, GetPodIPs)
  pkg/benchmark (manager)        (State, Manager.RunBenchmark and its helper
                                  phases deployInfrastructure, waitForServers,
                                  createHostsConfigMap, runPrefill,
                                  runBenchmarkClient, waitForCompletion)

Modelling conventions:
  Go `int`/`int64` fields are modelled as `Int`, Go `float64` as `Rat`
  (no claim depends on floating-point rounding, only on which value is
  copied and on zero versus non-zero).  Go maps are modelled as
  association lists with insert-or-update semantics.  External
  collaborators (the cluster API, the template engine, `encoding/json`,
  `k8s.io/.../wait.PollImmediate`) are parameters of the embedding or
  small models of their documented behaviour; everything else is a direct
  translation of the Go source.
-/

/-- Lowercasing of a string, modelling Go strings.ToLower (the inputs of all
claims are ASCII, where the two functions agree character by character);
defined structurally over the character list so that concrete instances
evaluate. -/
def strToLower (s : String) : String := String.mk (s.data.map Char.toLower)

/-- Helper for strContains: does the needle occur as a contiguous
subsequence of the haystack character list? -/
def strContainsAux (needle : List Char) : List Char → Bool
  | [] => needle.isEmpty
  | c :: cs => needle.isPrefixOf (c :: cs) || strContainsAux needle cs

/-- Substring test, modelling Go strings.Contains. -/
def strContains (s sub : String) : Bool := strContainsAux sub.data s.data

/-- Character class used by trimSpace. -/
def charIsSpace (c : Char) : Bool := c.isWhitespace

/-- Whitespace trimming of both ends, modelling Go strings.TrimSpace on the
whitespace actually occurring in log lines; defined structurally over the
character list. -/
def trimSpace (s : String) : String :=
  String.mk (((s.data.dropWhile charIsSpace).reverse.dropWhile charIsSpace).reverse)

/-- Prefix test, modelling Go strings.HasPrefix; defined structurally over
the character list. -/
def startsWithStr (s pre : String) : Bool := pre.data.isPrefixOf s.data

/-- Prefix removal, modelling Go strings.TrimPrefix. -/
def stringTrimPrefix (s pre : String) : String :=
  if pre.data.isPrefixOf s.data then String.mk (s.data.drop pre.data.length)
  else s

/-- Helper for splitLines: split the remaining characters at each
separator, the second argument holding the reversed current field. -/
def splitOnCharAux (sep : Char) : List Char → List Char → List String
  | [], acc => [String.mk acc.reverse]
  | c :: cs, acc =>
    if c == sep then String.mk acc.reverse :: splitOnCharAux sep cs []
    else splitOnCharAux sep cs (c :: acc)

/-- Newline split, modelling the strings.Split(logOutput, newline) call of
ParseFIOResults; defined structurally over the character list. -/
def splitLines (s : String) : List String := splitOnCharAux '\n' s.data []

/-- Latency statistics, from struct LatStats of pkg/workloads/fio/results.go.
The percentile field is a Go map with dynamic values; a value that is not a
float64 behaves exactly like an absent key in the source (the type assertion
yields ok = false), so both are modelled as an absent association-list key. -/
structure LatStats where
  Min : Int
  Max : Int
  Mean : Rat
  Stddev : Rat
  N : Int
  Percentile : List (String × Rat)
deriving Repr, DecidableEq

/-- Read/write/trim statistics, from struct IOStats of results.go. -/
structure IOStats where
  IOBytes : Int
  IOKBytes : Int
  BWBytes : Int
  BW : Int
  IOPS : Rat
  Runtime : Int
  TotalIOs : Int
  ShortIOs : Int
  DropIOs : Int
  SlatNs : LatStats
  ClatNs : LatStats
  LatNs : LatStats
  BWMin : Int
  BWMax : Int
  BWAgg : Rat
  BWMean : Rat
  BWDev : Rat
  BWSamples : Int
  IOPSMin : Int
  IOPSMax : Int
  IOPSMean : Rat
  IOPSStddev : Rat
  IOPSSamples : Int
deriving Repr, DecidableEq

/-- Sync operation statistics, from struct SyncStats of results.go. -/
structure SyncStats where
  TotalIOs : Int
  LatNs : LatStats
deriving Repr, DecidableEq

/-- Per-client/job statistics, from struct ClientStats of results.go. -/
structure ClientStats where
  JobName : String
  GroupID : Int
  JobStart : Int
  Error : Int
  JobOptions : List (String × String)
  Read : IOStats
  Write : IOStats
  Trim : IOStats
  Sync : SyncStats
  JobRuntime : Int
  UserCPU : Rat
  SysCPU : Rat
  Ctx : Int
  MajF : Int
  MinF : Int
  Hostname : String
  Port : Int
deriving Repr, DecidableEq

/-- Complete FIO JSON output, from struct FIOResult of results.go (the
dynamic values of GlobalOptions and the entries of DiskUtil are never read
by the code under verification and are modelled as strings). -/
structure FIOResult where
  FIOVersion : String
  Timestamp : Int
  Time : String
  GlobalOptions : List (String × String)
  ClientStats : List ClientStats
  DiskUtil : List String
deriving Repr, DecidableEq

/-- One output row, from struct ResultSummary of results.go. -/
structure ResultSummary where
  TestID : String
  Sample : Int
  JobName : String
  Hostname : String
  ReadIOPS : Rat
  ReadBW : Int
  WriteIOPS : Rat
  WriteBW : Int
  ReadLatP50 : Rat
  ReadLatP95 : Rat
  WriteLatP50 : Rat
  WriteLatP95 : Rat
  Runtime : Int
deriving Repr, DecidableEq

/-- Scanner state of ParseFIOResults: the loop variables inJSONBlock,
testID and currentJSON of results.go lines 112-114. -/
structure ParseState where
  inJSONBlock : Bool
  testID : String
  currentJSON : String
deriving Repr, DecidableEq

/-- The line loop of ParseFIOResults (results.go lines 116-148), translated
line by line.  The structured decoder is a parameter standing for the
external encoding/json.Unmarshal call on line 132; a decoder result of
none is the Unmarshal-error branch (warning printed, block dropped). -/
def parseFIOLoop {α : Type} (decode : String → Option α) :
    ParseState → List String → List α
  | _, [] => []
  | st, line0 :: rest =>
    let line := trimSpace line0
    if startsWithStr line ("FIO Result for ") then
      parseFIOLoop decode
        { inJSONBlock := true,
          testID := stringTrimPrefix line ("FIO Result for "),
          currentJSON := "" } rest
    else if startsWithStr line ("END FIO Result for ") then
      (if st.inJSONBlock ∧ 0 < st.currentJSON.length then
        match decode st.currentJSON with
        | some r => [r]
        | none => []
      else []) ++
        parseFIOLoop decode
          { inJSONBlock := false, testID := st.testID, currentJSON := "" } rest
    else if st.inJSONBlock then
      parseFIOLoop decode
        { st with currentJSON := st.currentJSON ++ line ++ ("\n") } rest
    else
      parseFIOLoop decode st rest

/-- ParseFIOResults of results.go lines 107-151: split the log on newlines,
run the scanner loop, and return the decoded blocks together with the error
result, which in the source is the literal nil on line 150. -/
def ParseFIOResults {α : Type} (decode : String → Option α)
    (logOutput : String) : List α × Option String :=
  (parseFIOLoop decode
    { inJSONBlock := false, testID := "", currentJSON := "" }
    (splitLines logOutput), none)

/-- The raw captured payloads of a log: the scanner loop instantiated with
the always-succeeding decoder, so each finalized buffer is returned as is. -/
def ParseFIORawBlocks (logOutput : String) : List String :=
  (ParseFIOResults some logOutput).1

/-- Percentile extraction of results.go lines 178-183 and 192-197: look the
key up in the completion-latency percentile map and divide by 1000
(nanoseconds to microseconds); on a failed lookup the summary field keeps
its zero value. -/
def latP (m : List (String × Rat)) (key : String) : Rat :=
  match List.lookup key m with
  | some p => p / 1000
  | none => 0

/-- The loop body of ExtractResultSummaries (results.go lines 164-200):
build the summary for one client stat.  The two if-blocks mutate the
freshly initialised summary exactly as the source does. -/
def summaryOf (testID : String) (sample : Int) (client : ClientStats) :
    ResultSummary :=
  let base : ResultSummary :=
    { TestID := testID
      Sample := sample
      JobName := client.JobName
      Hostname := client.Hostname
      ReadIOPS := 0
      ReadBW := 0
      WriteIOPS := 0
      WriteBW := 0
      ReadLatP50 := 0
      ReadLatP95 := 0
      WriteLatP50 := 0
      WriteLatP95 := 0
      Runtime := Int.tdiv client.JobRuntime 1000 }
  let s1 :=
    if 0 < client.Read.TotalIOs then
      { base with
        ReadIOPS := client.Read.IOPS
        ReadBW := client.Read.BW
        ReadLatP50 := latP client.Read.ClatNs.Percentile ("50.000000")
        ReadLatP95 := latP client.Read.ClatNs.Percentile ("95.000000") }
    else base
  if 0 < client.Write.TotalIOs then
    { s1 with
      WriteIOPS := client.Write.IOPS
      WriteBW := client.Write.BW
      WriteLatP50 := latP client.Write.ClatNs.Percentile ("50.000000")
      WriteLatP95 := latP client.Write.ClatNs.Percentile ("95.000000") }
  else s1

/-- The double loop of ExtractResultSummaries (results.go lines 157-202):
sampleIdx is the index of the block in the results slice, clients named
"All clients" are skipped, every other client yields one summary with
sample number sampleIdx + 1. -/
def extractFrom (testID : String) : Nat → List FIOResult → List ResultSummary
  | _, [] => []
  | sampleIdx, result :: rest =>
    (result.ClientStats.filter
        (fun c => c.JobName != ("All clients"))).map
      (summaryOf testID ((sampleIdx : Int) + 1)) ++
      extractFrom testID (sampleIdx + 1) rest

/-- ExtractResultSummaries of results.go lines 154-205. -/
def ExtractResultSummaries (results : List FIOResult) (testID : String) :
    List ResultSummary :=
  extractFrom testID 0 results

/-- Output of PrintResultsTable, modelled structurally: either the
"No FIO results found" notice or the table over the given rows (the
tabwriter text formatting carries no information beyond the rows and is
elided). -/
inductive TableOutput where
  | noResults : TableOutput
  | table : List ResultSummary → TableOutput
deriving Repr, DecidableEq

/-- PrintResultsTable of results.go lines 208-243: an empty summary slice
prints only the notice and returns; otherwise the table of all rows is
printed. -/
def PrintResultsTable (summaries : List ResultSummary) : TableOutput :=
  if summaries.length = 0 then TableOutput.noResults
  else TableOutput.table summaries

/-- The CSV header row of results.go lines 263-278. -/
def csvHeader : List String :=
  ["Test ID", "Sample", "Job Type", "Hostname", "Read IOPS",
   "Read BW (KB/s)", "Write IOPS", "Write BW (KB/s)", "Read Lat P50 (μs)",
   "Read Lat P95 (μs)", "Write Lat P50 (μs)", "Write Lat P95 (μs)",
   "Runtime (s)", "Timestamp"]

/-- One CSV record (results.go lines 287-302); Go's fixed one-decimal float
formatting is modelled by plain rendering of the value, which no claim
depends on.  The timestamp is the single wall-clock string taken once per
export call. -/
def csvRecord (timestamp : String) (s : ResultSummary) : List String :=
  [s.TestID, toString s.Sample, s.JobName, s.Hostname, toString s.ReadIOPS,
   toString s.ReadBW, toString s.WriteIOPS, toString s.WriteBW,
   toString s.ReadLatP50, toString s.ReadLatP95, toString s.WriteLatP50,
   toString s.WriteLatP95, toString s.Runtime, timestamp]

/-- ExportResultsToCSV of results.go lines 246-310: an empty summary slice
returns the error before any file is created; otherwise the written file
content is the header row followed by one record per summary.  The
wall-clock timestamp (time.Now) is a parameter; operating-system file
errors are outside the embedding. -/
def ExportResultsToCSV (summaries : List ResultSummary)
    (timestamp : String) : Except String (List (List String)) :=
  if summaries.length = 0 then Except.error ("no results to export")
  else Except.ok (csvHeader :: summaries.map (csvRecord timestamp))

/-- A Go error value as observed by isTransientError: its message (the
Error() string) and whether it satisfies the net.Error type assertion of
pkg/kubernetes/client.go line 65. -/
structure GoError where
  msg : String
  isNet : Bool
deriving Repr, DecidableEq

/-- The fixed substring list of client.go lines 47-56. -/
def transientErrors : List String :=
  ["client connection lost", "connection reset by peer", "timeout",
   "temporary failure", "network is unreachable", "no route to host",
   "connection refused", "i/o timeout"]

/-- isTransientError of client.go lines 40-70: nil is not transient; a
lowercased message containing one of the fixed substrings is transient;
otherwise an error of network-layer type is transient; everything else is
not. -/
def isTransientError : Option GoError → Bool
  | none => false
  | some err =>
    if transientErrors.any (fun t => strContains (strToLower err.msg) t) then
      true
    else
      err.isNet

/-- A pod as observed by the code under verification: status phase, pod IP
and node name (corev1.Pod narrowed to the three fields that are read). -/
structure Pod where
  phase : String
  podIP : String
  nodeName : String
deriving Repr, DecidableEq

/-- Job status counts, from batchv1.Job as read by WaitForJobCompletion. -/
structure JobStatus where
  Succeeded : Int
  Failed : Int
  Active : Int
deriving Repr, DecidableEq

/-- The cluster as seen through the kubernetes.Client collaborator: the
result of ListPods at the n-th poll attempt of WaitForPodsReady, the
result of the separate ListPods call made by GetPodIPs afterwards (listing
can race with status, so this view may differ from the poll's), the result
of GetJob for a job name at the n-th poll attempt, and the result of
ApplyManifest per manifest text (the namespace argument adds nothing to
the control flow and is elided). -/
structure ClusterEnv where
  podsDuringPoll : Nat → Except GoError (List Pod)
  podsAtCollect : Except GoError (List Pod)
  getJob : String → Nat → Except GoError JobStatus
  applyManifest : String → Except String Unit

/-- The template engine collaborator (pkg/templates), one field per render
call made by the manager; each returns manifest text or a render error. -/
structure TemplateEnv where
  renderConfigMap : Except String String
  renderPrefillConfigMap : Except String String
  renderPVC : Nat → Except String String
  renderServer : Nat → Except String String
  renderServerVM : Nat → Except String String
  renderHostsConfigMap : List String → Except String String
  renderPrefillClient : Except String String
  renderClient : List (String × String) → Except String String

/-- The workload arguments read by the manager (config.WorkloadArgs).
Servers is a count driving loops for i := 1; i <= N; i++, modelled as Nat. -/
structure WorkloadArgs where
  Servers : Nat
  Prefill : Bool
  StorageClass : String
  Kind : String
  JobTimeout : Nat
  PostPrefillSleep : Nat
deriving Repr, DecidableEq

/-- The configuration fields the manager's control flow reads; the
truncated UUID (config.GetTruncatedUUID) only feeds resource names. -/
structure Config where
  truncatedUUID : String
  workloadArgs : WorkloadArgs
deriving Repr, DecidableEq

/-- Modelled from the spec: the ReadinessPoller primitive (section 4.2),
realised in the repository by the vendored k8s.io wait.PollImmediate,
which is not under src.  It performs an immediate first check and then one
check per interval until the check reports done or returns an error or the
timeout elapses; exhaustion yields the timeout error.  The fuel counts the
remaining checks. -/
def pollLoop (check : Nat → Except String Bool) : Nat → Nat → Except String Unit
  | _, 0 => Except.error ("timed out waiting for the condition")
  | tick, Nat.succ fuel =>
    match check tick with
    | Except.error e => Except.error e
    | Except.ok true => Except.ok ()
    | Except.ok false => pollLoop check (tick + 1) fuel

/-- Modelled from the spec: wait.PollImmediate with a given interval and
timeout (both in seconds) runs the immediate check plus one check per full
interval inside the timeout. -/
def pollImmediate (check : Nat → Except String Bool)
    (interval timeout : Nat) : Except String Unit :=
  pollLoop check 0 (timeout / interval + 1)

/-- Running-pod count of client.go lines 254-259. -/
def countRunningPods (pods : List Pod) : Nat :=
  (pods.filter (fun p => p.phase == ("Running"))).length

/-- The condition function of WaitForPodsReady (client.go lines 241-265):
a transient listing error is retried as not-ready, a non-transient one
fails the wait, otherwise ready means at least expectedCount running pods. -/
def waitForPodsReadyCheck (env : ClusterEnv) (expectedCount : Nat)
    (tick : Nat) : Except String Bool :=
  match env.podsDuringPoll tick with
  | Except.error e =>
    if isTransientError (some e) then Except.ok false
    else Except.error (("failed to list pods: ") ++ e.msg)
  | Except.ok pods => Except.ok (decide (expectedCount ≤ countRunningPods pods))

/-- WaitForPodsReady of client.go lines 240-267 (interval 5 seconds). -/
def WaitForPodsReady (env : ClusterEnv) (expectedCount : Nat)
    (timeout : Nat) : Except String Unit :=
  pollImmediate (waitForPodsReadyCheck env expectedCount) 5 timeout

/-- The condition function of WaitForJobCompletion (client.go lines
271-299): transient get errors are retried, a positive succeeded count
completes the wait, a positive failed count fails it, otherwise keep
waiting. -/
def waitForJobCheck (env : ClusterEnv) (name : String) (tick : Nat) :
    Except String Bool :=
  match env.getJob name tick with
  | Except.error e =>
    if isTransientError (some e) then Except.ok false
    else Except.error (("failed to get job: ") ++ e.msg)
  | Except.ok job =>
    if 0 < job.Succeeded then Except.ok true
    else if 0 < job.Failed then
      Except.error (("job ") ++ name ++ (" failed"))
    else Except.ok false

/-- WaitForJobCompletion of client.go lines 270-300 (interval 60 seconds). -/
def WaitForJobCompletion (env : ClusterEnv) (name : String)
    (timeout : Nat) : Except String Unit :=
  pollImmediate (waitForJobCheck env name) 60 timeout

/-- Go map assignment m[k] = v on an association-list model: update the
existing entry for the key in place, else append a new entry. -/
def goMapInsert (m : List (String × String)) (k v : String) :
    List (String × String) :=
  if m.any (fun p => p.1 == k) then
    m.map (fun p => if p.1 == k then (k, v) else p)
  else m ++ [(k, v)]

/-- The range loop of GetPodIPs (client.go lines 347-351): visit the
listed pods in order and record those whose IP and node name are both
non-empty. -/
def getPodIPsGo : List (String × String) → List Pod → List (String × String)
  | m, [] => m
  | m, p :: ps =>
    getPodIPsGo
      (if p.podIP ≠ ("") ∧ p.nodeName ≠ ("") then goMapInsert m p.podIP p.nodeName
       else m) ps

/-- GetPodIPs of client.go lines 340-354, the pure map-building part over
an already-listed pod set: keep exactly the pods whose IP and node name
are both non-empty, keyed by IP (so pods reporting the same IP collapse
into one entry, last writer wins). -/
def GetPodIPs (pods : List Pod) : List (String × String) :=
  getPodIPsGo [] pods

/-- The benchmark execution state, from type State of the benchmark
manager (a Go string type). -/
abbrev State := String

/-- State constant Building. -/
def StateBuilding : State := "Building"

/-- State constant StartingServers. -/
def StateStartingServers : State := "StartingServers"

/-- State constant StartingClient. -/
def StateStartingClient : State := "StartingClient"

/-- State constant Prefilling. -/
def StatePrefilling : State := "Prefilling"

/-- State constant StartBenchmark. -/
def StateStartBenchmark : State := "StartBenchmark"

/-- State constant Running. -/
def StateRunning : State := "Running"

/-- State constant Completed. -/
def StateCompleted : State := "Completed"

/-- State constant Failed. -/
def StateFailed : State := "Failed"

/-- The mutable fields of the benchmark Manager: current state and the
collected pod-IP to node-name map. -/
structure ManagerState where
  state : State
  podDetails : List (String × String)
deriving Repr, DecidableEq

/-- The fresh manager state built by NewManager. -/
def newManagerState : ManagerState :=
  { state := StateBuilding, podDetails := [] }

/-- Sequential loop for i := lo; i <= lo + n - 1; i++ over a fallible body,
stopping at the first error, as in the manifest-apply loops of the
manager. -/
def forRangeM (act : Nat → Except String Unit) : Nat → Nat → Except String Unit
  | _, 0 => Except.ok ()
  | i, Nat.succ n =>
    match act i with
    | Except.error e => Except.error e
    | Except.ok _ => forRangeM act (i + 1) n

/-- Server manifest choice of the manager (kind "vm" selects the VM
template). -/
def renderServerFor (tmpl : TemplateEnv) (cfg : Config) (i : Nat) :
    Except String String :=
  if cfg.workloadArgs.Kind = ("vm") then tmpl.renderServerVM i
  else tmpl.renderServer i

/-- The fallible body of deployInfrastructure (manager lines 142-199):
render and apply the configmap, the optional prefill configmap, the
optional per-server PVCs, then the per-server manifests, in that order,
aborting at the first error with the source's wrapped message. -/
def deployInfrastructureE (env : ClusterEnv) (tmpl : TemplateEnv)
    (cfg : Config) : Except String Unit :=
  match tmpl.renderConfigMap with
  | Except.error e => Except.error (("failed to render configmap: ") ++ e)
  | Except.ok cm =>
  match env.applyManifest cm with
  | Except.error e => Except.error (("failed to apply configmap: ") ++ e)
  | Except.ok _ =>
  match (if cfg.workloadArgs.Prefill then
      match tmpl.renderPrefillConfigMap with
      | Except.error e =>
        Except.error (("failed to render prefill configmap: ") ++ e)
      | Except.ok pcm =>
        match env.applyManifest pcm with
        | Except.error e =>
          Except.error (("failed to apply prefill configmap: ") ++ e)
        | Except.ok _ => Except.ok ()
    else Except.ok ()) with
  | Except.error e => Except.error e
  | Except.ok _ =>
  match (if cfg.workloadArgs.StorageClass ≠ ("") then
      forRangeM (fun i =>
        match tmpl.renderPVC i with
        | Except.error e =>
          Except.error (("failed to render PVC ") ++ toString i ++ (": ") ++ e)
        | Except.ok pvc =>
          match env.applyManifest pvc with
          | Except.error e =>
            Except.error (("failed to apply PVC ") ++ toString i ++ (": ") ++ e)
          | Except.ok _ => Except.ok ()) 1 cfg.workloadArgs.Servers
    else Except.ok ()) with
  | Except.error e => Except.error e
  | Except.ok _ =>
  forRangeM (fun i =>
    match renderServerFor tmpl cfg i with
    | Except.error e =>
      Except.error (("failed to render server ") ++ toString i ++ (": ") ++ e)
    | Except.ok server =>
      match env.applyManifest server with
      | Except.error e =>
        Except.error (("failed to apply server ") ++ toString i ++ (": ") ++ e)
      | Except.ok _ => Except.ok ()) 1 cfg.workloadArgs.Servers

/-- deployInfrastructure of the manager: the state is written
(m.state = StateStartingServers, line 201) only after every apply has
succeeded; any failure leaves the state untouched. -/
def deployInfrastructure (env : ClusterEnv) (tmpl : TemplateEnv)
    (cfg : Config) (ms : ManagerState) : Except String Unit × ManagerState :=
  match deployInfrastructureE env tmpl cfg with
  | Except.error e => (Except.error e, ms)
  | Except.ok _ => (Except.ok (), { ms with state := StateStartingServers })

/-- waitForServers of the manager (lines 206-231): wait for the expected
number of running pods, then collect the pod-IP map with a second listing;
if the collected map's size differs from the expected server count the
phase fails even though the poll succeeded; on success the map is stored
and the state becomes StartingClient. -/
def waitForServers (env : ClusterEnv) (cfg : Config) (ms : ManagerState) :
    Except String Unit × ManagerState :=
  match WaitForPodsReady env cfg.workloadArgs.Servers
      cfg.workloadArgs.JobTimeout with
  | Except.error e =>
    (Except.error (("failed to wait for servers to be ready: ") ++ e), ms)
  | Except.ok _ =>
    match env.podsAtCollect with
    | Except.error e =>
      (Except.error (("failed to get pod IPs: ") ++ e.msg), ms)
    | Except.ok pods =>
      let podDetails := GetPodIPs pods
      if podDetails.length ≠ cfg.workloadArgs.Servers then
        (Except.error (("expected ") ++ toString cfg.workloadArgs.Servers ++
          (" servers, got ") ++ toString podDetails.length), ms)
      else
        (Except.ok (), { state := StateStartingClient, podDetails := podDetails })

/-- createHostsConfigMap of the manager (lines 234-259): render the hosts
configmap from the collected pod IPs and apply it; no state change.  Go
map iteration order is unspecified; the model iterates in entry order,
which no claim depends on.  The VM port sleep is wall-clock time and is
elided. -/
def createHostsConfigMap (env : ClusterEnv) (tmpl : TemplateEnv)
    (cfg : Config) (ms : ManagerState) : Except String Unit × ManagerState :=
  let hosts := ms.podDetails.map (fun p => p.1)
  match tmpl.renderHostsConfigMap hosts with
  | Except.error e =>
    (Except.error (("failed to render hosts configmap: ") ++ e), ms)
  | Except.ok manifest =>
    match env.applyManifest manifest with
    | Except.error e =>
      (Except.error (("failed to apply hosts configmap: ") ++ e), ms)
    | Except.ok _ => (Except.ok (), ms)

/-- runPrefill of the manager (lines 262-294): the state becomes
Prefilling first; render and apply the prefill client, wait for the
prefill job, and only on full success move to StartBenchmark.  The
post-prefill sleep is wall-clock time and is elided. -/
def runPrefill (env : ClusterEnv) (tmpl : TemplateEnv) (cfg : Config)
    (ms : ManagerState) : Except String Unit × ManagerState :=
  let ms := { ms with state := StatePrefilling }
  match tmpl.renderPrefillClient with
  | Except.error e =>
    (Except.error (("failed to render prefill client: ") ++ e), ms)
  | Except.ok manifest =>
  match env.applyManifest manifest with
  | Except.error e =>
    (Except.error (("failed to apply prefill client: ") ++ e), ms)
  | Except.ok _ =>
  match WaitForJobCompletion env (("fio-prefill-") ++ cfg.truncatedUUID)
      cfg.workloadArgs.JobTimeout with
  | Except.error e => (Except.error (("prefill job failed: ") ++ e), ms)
  | Except.ok _ => (Except.ok (), { ms with state := StateStartBenchmark })

/-- runBenchmarkClient of the manager (lines 297-317): without prefill the
state first becomes StartBenchmark; render and apply the client manifest;
on success the state becomes Running. -/
def runBenchmarkClient (env : ClusterEnv) (tmpl : TemplateEnv) (cfg : Config)
    (ms : ManagerState) : Except String Unit × ManagerState :=
  let ms :=
    if cfg.workloadArgs.Prefill then ms
    else { ms with state := StateStartBenchmark }
  match tmpl.renderClient ms.podDetails with
  | Except.error e => (Except.error (("failed to render client: ") ++ e), ms)
  | Except.ok manifest =>
    match env.applyManifest manifest with
    | Except.error e => (Except.error (("failed to apply client: ") ++ e), ms)
    | Except.ok _ => (Except.ok (), { ms with state := StateRunning })

/-- waitForCompletion of the manager (lines 320-332): wait for the client
job to complete; no state change here. -/
def waitForCompletion (env : ClusterEnv) (cfg : Config) (ms : ManagerState) :
    Except String Unit × ManagerState :=
  match WaitForJobCompletion env (("fio-client-") ++ cfg.truncatedUUID)
      cfg.workloadArgs.JobTimeout with
  | Except.error e => (Except.error (("benchmark job failed: ") ++ e), ms)
  | Except.ok _ => (Except.ok (), ms)

/-- RunBenchmark of the manager (lines 100-139): the six phases in order,
each aborting the run on error with the source's wrapped message and the
state left as the failing helper left it; success ends in Completed. -/
def RunBenchmark (env : ClusterEnv) (tmpl : TemplateEnv) (cfg : Config) :
    Except String Unit × ManagerState :=
  match deployInfrastructure env tmpl cfg newManagerState with
  | (Except.error e, ms) =>
    (Except.error (("failed to deploy infrastructure: ") ++ e), ms)
  | (Except.ok _, ms1) =>
  match waitForServers env cfg ms1 with
  | (Except.error e, ms) =>
    (Except.error (("failed to wait for servers: ") ++ e), ms)
  | (Except.ok _, ms2) =>
  match createHostsConfigMap env tmpl cfg ms2 with
  | (Except.error e, ms) =>
    (Except.error (("failed to create hosts configmap: ") ++ e), ms)
  | (Except.ok _, ms3) =>
  match (if cfg.workloadArgs.Prefill then runPrefill env tmpl cfg ms3
    else (Except.ok (), ms3)) with
  | (Except.error e, ms) =>
    (Except.error (("failed to run prefill: ") ++ e), ms)
  | (Except.ok _, ms4) =>
  match runBenchmarkClient env tmpl cfg ms4 with
  | (Except.error e, ms) =>
    (Except.error (("failed to run benchmark client: ") ++ e), ms)
  | (Except.ok _, ms5) =>
  match waitForCompletion env cfg ms5 with
  | (Except.error e, ms) =>
    (Except.error (("failed to wait for completion: ") ++ e), ms)
  | (Except.ok _, ms6) => (Except.ok (), { ms6 with state := StateCompleted })

/-- The zero LatStats value, as json.Unmarshal leaves absent fields. -/
def zeroLatStats : LatStats :=
  { Min := 0, Max := 0, Mean := 0, Stddev := 0, N := 0, Percentile := [] }

/-- The zero IOStats value, as json.Unmarshal leaves absent fields. -/
def zeroIOStats : IOStats :=
  { IOBytes := 0, IOKBytes := 0, BWBytes := 0, BW := 0, IOPS := 0,
    Runtime := 0, TotalIOs := 0, ShortIOs := 0, DropIOs := 0,
    SlatNs := zeroLatStats, ClatNs := zeroLatStats, LatNs := zeroLatStats,
    BWMin := 0, BWMax := 0, BWAgg := 0, BWMean := 0, BWDev := 0,
    BWSamples := 0, IOPSMin := 0, IOPSMax := 0, IOPSMean := 0,
    IOPSStddev := 0, IOPSSamples := 0 }

/-- The zero ClientStats value, as json.Unmarshal leaves absent fields. -/
def zeroClientStats : ClientStats :=
  { JobName := "", GroupID := 0, JobStart := 0, Error := 0, JobOptions := [],
    Read := zeroIOStats, Write := zeroIOStats, Trim := zeroIOStats,
    Sync := { TotalIOs := 0, LatNs := zeroLatStats }, JobRuntime := 0,
    UserCPU := 0, SysCPU := 0, Ctx := 0, MajF := 0, MinF := 0,
    Hostname := "", Port := 0 }

/-- The zero FIOResult value, as json.Unmarshal leaves absent fields. -/
def zeroFIOResult : FIOResult :=
  { FIOVersion := "", Timestamp := 0, Time := "", GlobalOptions := [],
    ClientStats := [], DiskUtil := [] }

/-- Concrete single-job client stat used by the numbering scenario. -/
def clientC1 : ClientStats :=
  { zeroClientStats with JobName := "job1", Hostname := "host1" }

/-- Concrete decoded block used by the numbering scenario. -/
def fioResultC1 : FIOResult := { zeroFIOResult with ClientStats := [clientC1] }

/-- The JSON payload text of the numbering scenario's blocks. -/
def payloadC1 : String :=
  "\x7b\"client_stats\": [\x7b\"jobname\": \"job1\", \"hostname\": \"host1\"\x7d]\x7d"

/-- Behaviour of the external json.Unmarshal on the scenario's payload:
it succeeds on this well-formed JSON object, filling absent fields with
their zero values. -/
def decodeC1 : String → Option FIOResult :=
  fun s => if s = payloadC1 ++ ("\n") then some fioResultC1 else none

/-- Log text containing two well-formed blocks for test id T1 followed by
one for T2, with unrelated lines interleaved before, between and after. -/
def logC1 : String :=
  ("noise before\nFIO Result for T1\n") ++ payloadC1 ++
  ("\nEND FIO Result for T1\nmore noise\nFIO Result for T1\n") ++ payloadC1 ++
  ("\nEND FIO Result for T1\nFIO Result for T2\n") ++ payloadC1 ++
  ("\nEND FIO Result for T2\ntrailing noise")

/-- Log text whose single captured block has a payload line with leading
and trailing spaces. -/
def logC5 : String :=
  "FIO Result for T\n   padded line   \nEND FIO Result for T"

/-- Client stat with both directions exercised (positive read and write
operation counts). -/
def clientBothDirs : ClientStats :=
  { zeroClientStats with
    JobName := "jobrw"
    Hostname := "hostrw"
    Read := { zeroIOStats with TotalIOs := 10, IOPS := 100, BW := 5 }
    Write := { zeroIOStats with TotalIOs := 20, IOPS := 50, BW := 3 } }

/-- Decoded block holding only the both-directions client stat. -/
def resultBothDirs : FIOResult :=
  { zeroFIOResult with ClientStats := [clientBothDirs] }

/-- Client stat with only the read direction exercised. -/
def clientReadOnly : ClientStats :=
  { zeroClientStats with
    JobName := "jobr"
    Hostname := "hostr"
    Read := { zeroIOStats with TotalIOs := 7, IOPS := 70, BW := 4 } }

/-- A running pod with a complete address, used by the success scenarios. -/
def podA : Pod :=
  { phase := "Running", podIP := "10.0.0.1", nodeName := "node1" }

/-- A running pod whose IP is still empty, as listed during a race between
status and listing. -/
def podNoIP : Pod :=
  { phase := "Running", podIP := "", nodeName := "node1" }

/-- A cluster in which every call succeeds: one running pod with a full
address, jobs complete at once, manifests apply cleanly. -/
def goodClusterEnv : ClusterEnv :=
  { podsDuringPoll := fun _ => Except.ok [podA]
    podsAtCollect := Except.ok [podA]
    getJob := fun _ _ => Except.ok { Succeeded := 1, Failed := 0, Active := 0 }
    applyManifest := fun _ => Except.ok () }

/-- A template engine in which every render succeeds. -/
def goodTemplateEnv : TemplateEnv :=
  { renderConfigMap := Except.ok "m-config"
    renderPrefillConfigMap := Except.ok "m-prefill-config"
    renderPVC := fun _ => Except.ok "m-pvc"
    renderServer := fun _ => Except.ok "m-server"
    renderServerVM := fun _ => Except.ok "m-server-vm"
    renderHostsConfigMap := fun _ => Except.ok "m-hosts"
    renderPrefillClient := Except.ok "m-prefill-client"
    renderClient := fun _ => Except.ok "m-client" }

/-- One-server configuration without prefill. -/
def cfgOne : Config :=
  { truncatedUUID := "abc12345"
    workloadArgs :=
      { Servers := 1, Prefill := false, StorageClass := "", Kind := "pod",
        JobTimeout := 10, PostPrefillSleep := 0 } }

/-- Template engine whose configmap render fails, driving the very first
step of RunBenchmark into an error. -/
def tmplRenderFails : TemplateEnv :=
  { goodTemplateEnv with renderConfigMap := Except.error "boom" }

/-- Cluster whose readiness poll sees the expected running pod but whose
later collection listing returns the pod before its IP is assigned. -/
def envCollectRace : ClusterEnv :=
  { goodClusterEnv with podsAtCollect := Except.ok [podNoIP] }

/-- A second running pod that reports the same IP as podA but a different
node. -/
def podDup : Pod :=
  { phase := "Running", podIP := "10.0.0.1", nodeName := "node2" }

/-- Cluster in which both listings return two running pods sharing one IP. -/
def envDup : ClusterEnv :=
  { goodClusterEnv with
    podsDuringPoll := fun _ => Except.ok [podA, podDup]
    podsAtCollect := Except.ok [podA, podDup] }

/-- Two-server configuration without prefill. -/
def cfgTwo : Config :=
  { truncatedUUID := "abc12345"
    workloadArgs :=
      { Servers := 2, Prefill := false, StorageClass := "", Kind := "pod",
        JobTimeout := 10, PostPrefillSleep := 0 } }

/-- Manager state as it stands when waitForServers runs. -/
def msStartingServers : ManagerState :=
  { state := StateStartingServers, podDetails := [] }

/-- Expected payload of a captured block in terms of its buffered lines:
each line after whitespace trimming, followed by the newline the scanner
appends. -/
def payloadOf : List String → String
  | [] => ""
  | l :: ls => trimSpace l ++ ("\n") ++ payloadOf ls

/-- C7: over the same summary sequence the two exporters behave
asymmetrically on empty input: CSV export of an empty summary sequence
returns an error (the source returns before any file is created), while
table rendering of an empty summary sequence succeeds and prints only the
no-results notice; both behaviours hold simultaneously. -/
theorem empty_export_asymmetry :
    (∀ timestamp, ExportResultsToCSV [] timestamp
      = Except.error ("no results to export"))
    ∧ PrintResultsTable [] = TableOutput.noResults :=
  ⟨fun _ => rfl, rfl⟩

/-- C8: transient-versus-fatal classification is a pure function of the
error's description and type: a non-nil error is transient exactly when
its lowercased message contains one of the eight fixed network-symptom
substrings or the error is a network-layer error; a nil error is never
transient. -/
theorem isTransientError_classification :
    (∀ e : GoError,
      isTransientError (some e) = true ↔
        ((∃ t ∈ transientErrors, strContains (strToLower e.msg) t = true)
          ∨ e.isNet = true))
    ∧ isTransientError none = false := by
  refine ⟨fun e => ?_, rfl⟩
  rw [show isTransientError (some e)
      = (if (transientErrors.any fun t => strContains (strToLower e.msg) t)
            = true then true else e.isNet) from rfl]
  by_cases hc :
      transientErrors.any (fun t => strContains (strToLower e.msg) t) = true
  · rw [if_pos hc]
    simp only [true_iff]
    rcases List.any_eq_true.mp hc with ⟨t, ht, hmem⟩
    exact Or.inl ⟨t, ht, hmem⟩
  · rw [if_neg hc]
    constructor
    · exact fun h => Or.inr h
    · intro h
      rcases h with ⟨t, ht, hmem⟩ | h
      · exact absurd (List.any_eq_true.mpr ⟨t, ht, hmem⟩) hc
      · exact h

theorem parseFIOLoop_filterMap {α : Type} (decode : String → Option α)
    (st : ParseState) (lines : List String) :
    parseFIOLoop decode st lines
      = (parseFIOLoop some st lines).filterMap decode := by
  induction lines generalizing st with
  | nil => simp [parseFIOLoop]
  | cons l rest ih =>
    simp only [parseFIOLoop]
    split
    · exact ih _
    · split
      · rw [List.filterMap_append]
        congr 1
        · split
          · cases h : decode st.currentJSON <;> simp [h]
          · simp
        · exact ih _
      · split
        · exact ih _
        · exact ih _

/-- C6: extraction never returns a non-nil error for any input string, and
its block list is exactly the successfully decoded blocks: a block whose
payload fails structured decoding is dropped (with a warning) while
scanning resumes and every other successfully decoded block is still
returned. -/
theorem parse_never_errors_and_keeps_decoded {α : Type}
    (decode : String → Option α) (logOutput : String) :
    ParseFIOResults decode logOutput
      = ((ParseFIORawBlocks logOutput).filterMap decode, none) := by
  simp only [ParseFIOResults, ParseFIORawBlocks]
  rw [parseFIOLoop_filterMap]

theorem parseFIOLoop_no_end {α : Type} (decode : String → Option α)
    (st : ParseState) (lines : List String)
    (h : ∀ l ∈ lines,
      startsWithStr (trimSpace l) ("END FIO Result for ") = false) :
    parseFIOLoop decode st lines = [] := by
  induction lines generalizing st with
  | nil => simp [parseFIOLoop]
  | cons l rest ih =>
    have hl := h l (List.mem_cons_self l rest)
    have hrest := fun x hx => h x (List.mem_cons_of_mem l hx)
    simp only [parseFIOLoop]
    split
    · exact ih _ hrest
    · split
      · next hEnd => rw [hl] at hEnd; exact absurd hEnd (by simp)
      · split
        · exact ih _ hrest
        · exact ih _ hrest

/-- C9: lines containing no end-delimiter line finalize no block from any
scanner state: a start delimiter not followed by a matching end-delimiter
line before the input is exhausted yields no block for that occurrence,
the partially buffered text being dropped undecoded, so the result list
holds only blocks whose start and end delimiter lines were both observed. -/
theorem no_end_delimiter_no_block {α : Type} (decode : String → Option α)
    (st : ParseState) (pre post : List String)
    (h : ∀ l ∈ post,
      startsWithStr (trimSpace l) ("END FIO Result for ") = false) :
    parseFIOLoop decode st (pre ++ post) = parseFIOLoop decode st pre := by
  induction pre generalizing st with
  | nil =>
    rw [List.nil_append]
    rw [parseFIOLoop_no_end decode st post h]
    simp [parseFIOLoop]
  | cons l rest ih =>
    rw [List.cons_append]
    simp only [parseFIOLoop, ih]

/-- Concrete run of no_end_delimiter_no_block: a terminated block for test
A followed by a start delimiter for test B whose block never ends; the
unterminated occurrence contributes nothing. -/
theorem no_end_delimiter_no_block_witness :
    (∀ l ∈ (["FIO Result for B", "data line 1", "data line 2"] : List String),
      startsWithStr (trimSpace l) ("END FIO Result for ") = false)
    ∧ parseFIOLoop some
        { inJSONBlock := false, testID := "", currentJSON := "" }
        ((["FIO Result for A", "payload", "END FIO Result for A"] :
            List String) ++
          ["FIO Result for B", "data line 1", "data line 2"])
      = parseFIOLoop some
          { inJSONBlock := false, testID := "", currentJSON := "" }
          ["FIO Result for A", "payload", "END FIO Result for A"] :=
  ⟨by decide,
    no_end_delimiter_no_block some
      { inJSONBlock := false, testID := "", currentJSON := "" }
      ["FIO Result for A", "payload", "END FIO Result for A"]
      ["FIO Result for B", "data line 1", "data line 2"] (by decide)⟩

theorem strAppend_empty (s : String) : s ++ ("") = s := by
  cases s with
  | mk data =>
    show String.mk (data ++ []) = String.mk data
    rw [List.append_nil]

theorem strAppend_assoc (a b c : String) : (a ++ b) ++ c = a ++ (b ++ c) := by
  cases a with
  | mk as =>
    cases b with
    | mk bs =>
      cases c with
      | mk cs =>
        show String.mk ((as ++ bs) ++ cs) = String.mk (as ++ (bs ++ cs))
        rw [List.append_assoc]

theorem strLength_pos_of_ne_empty (s : String) (h : s ≠ ("")) :
    0 < s.length := by
  cases s with
  | mk data =>
    cases data with
    | nil => exact absurd rfl h
    | cons c cs => simp [String.length]

/-- C5 is false as stated: the captured payload line is appended trimmed,
not verbatim — the log whose payload line carries leading and trailing
spaces yields the trimmed payload, not the original line. -/
theorem verbatim_append_counterexample :
    ParseFIORawBlocks logC5 = ["padded line\n"]
    ∧ (["padded line\n"] : List String) ≠ ["   padded line   \n"] :=
  ⟨by decide, by decide⟩

/-- C5 (amended): while capturing, every line that is neither a
start-delimiter nor an end-delimiter line is appended to the block's
buffer after leading and trailing whitespace trimming, with a newline
appended, so the finalized payload equals the concatenation of the
trimmed lines each followed by a newline. -/
theorem capture_appends_trimmed_lines (tid buf : String)
    (lines : List String) (endL : String) (rest : List String)
    (hlines : ∀ l ∈ lines,
      startsWithStr (trimSpace l) ("FIO Result for ") = false ∧
      startsWithStr (trimSpace l) ("END FIO Result for ") = false)
    (hend1 : startsWithStr (trimSpace endL) ("FIO Result for ") = false)
    (hend2 : startsWithStr (trimSpace endL) ("END FIO Result for ") = true)
    (hne : buf ++ payloadOf lines ≠ ("")) :
    parseFIOLoop some
        { inJSONBlock := true, testID := tid, currentJSON := buf }
        (lines ++ endL :: rest)
      = (buf ++ payloadOf lines) ::
          parseFIOLoop some
            { inJSONBlock := false, testID := tid, currentJSON := "" } rest := by
  induction lines generalizing buf with
  | nil =>
    rw [show payloadOf ([] : List String) = ("") from rfl, strAppend_empty] at hne ⊢
    have hpos : 0 < buf.length := strLength_pos_of_ne_empty buf hne
    rw [List.nil_append]
    simp [parseFIOLoop, hend1, hend2, hpos]
  | cons l ls ih =>
    obtain ⟨hl1, hl2⟩ := hlines l (List.mem_cons_self l ls)
    have hrest := fun x hx => hlines x (List.mem_cons_of_mem l hx)
    have hassoc : (buf ++ trimSpace l ++ ("\n")) ++ payloadOf ls
        = buf ++ payloadOf (l :: ls) := by
      simp only [payloadOf, strAppend_assoc]
    have hne2 : (buf ++ trimSpace l ++ ("\n")) ++ payloadOf ls ≠ ("") := by
      rw [hassoc]; exact hne
    rw [List.cons_append]
    simp only [parseFIOLoop, hl1, hl2, Bool.false_eq_true, if_false]
    rw [ih (buf ++ trimSpace l ++ ("\n")) hrest hne2, hassoc]
    simp

/-- Concrete run of capture_appends_trimmed_lines: two buffered lines, one
padded with spaces, produce the trimmed-and-newline-joined payload. -/
theorem capture_appends_trimmed_lines_witness :
    (∀ l ∈ (["  alpha  ", "beta"] : List String),
      startsWithStr (trimSpace l) ("FIO Result for ") = false ∧
      startsWithStr (trimSpace l) ("END FIO Result for ") = false)
    ∧ startsWithStr (trimSpace ("END FIO Result for T")) ("FIO Result for ")
        = false
    ∧ startsWithStr (trimSpace ("END FIO Result for T"))
        ("END FIO Result for ") = true
    ∧ ("" ++ payloadOf ["  alpha  ", "beta"] ≠ (""))
    ∧ parseFIOLoop some
        { inJSONBlock := true, testID := "T", currentJSON := "" }
        ((["  alpha  ", "beta"] : List String)
          ++ ("END FIO Result for T") :: [])
      = ("" ++ payloadOf ["  alpha  ", "beta"]) ::
          parseFIOLoop some
            { inJSONBlock := false, testID := "T", currentJSON := "" } [] :=
  ⟨by decide, by decide, by decide, by decide,
    capture_appends_trimmed_lines "T" "" ["  alpha  ", "beta"]
      ("END FIO Result for T") [] (by decide) (by decide) (by decide)
      (by decide)⟩

theorem summaryOf_TestID (tid : String) (n : Int) (c : ClientStats) :
    (summaryOf tid n c).TestID = tid := by
  unfold summaryOf
  dsimp only
  split <;> split <;> rfl

theorem summaryOf_Sample (tid : String) (n : Int) (c : ClientStats) :
    (summaryOf tid n c).Sample = n := by
  unfold summaryOf
  dsimp only
  split <;> split <;> rfl

theorem mem_extractFrom (tid : String) (results : List FIOResult)
    (i : Nat) (s : ResultSummary) (h : s ∈ extractFrom tid i results) :
    ∃ j r c, results.get? j = some r ∧ c ∈ r.ClientStats ∧
      (c.JobName != ("All clients")) = true ∧
      s = summaryOf tid (((i + j : Nat) : Int) + 1) c := by
  induction results generalizing i with
  | nil => simp [extractFrom] at h
  | cons r rest ih =>
    simp only [extractFrom, List.mem_append] at h
    rcases h with h | h
    · rcases List.mem_map.mp h with ⟨c, hc, rfl⟩
      rcases List.mem_filter.mp hc with ⟨hcmem, hcname⟩
      exact ⟨0, r, c, rfl, hcmem, hcname, by norm_num⟩
    · rcases ih (i + 1) h with ⟨j, r2, c, hj, hc, hn, hs⟩
      refine ⟨j + 1, r2, c, ?_, hc, hn, ?_⟩
      · simpa using hj
      · rw [hs]
        congr 1
        push_cast
        ring

/-- C1 is false as stated: for the log holding two well-formed blocks for
embedded test id T1 followed by one for T2 (with unrelated lines
interleaved), the extractor numbers the samples 1, 2, 3 globally and tags
every row with the caller-supplied test id, not 1, 2 for T1 and 1 for T2. -/
theorem sample_numbering_counterexample :
    (ExtractResultSummaries (ParseFIOResults decodeC1 logC1).1 ("X")).map
        ResultSummary.Sample = [1, 2, 3]
    ∧ (ExtractResultSummaries (ParseFIOResults decodeC1 logC1).1 ("X")).map
        ResultSummary.TestID = ["X", "X", "X"]
    ∧ ([1, 2, 3] : List Int) ≠ [1, 2, 1] :=
  ⟨by decide, by decide, by decide⟩

/-- C1 (amended): the sample ordinal attached to each summary row is the
1-based position of its originating decoded block among all decoded blocks
of the log, regardless of each block's embedded test identifier (which the
parser discards), and every row carries the caller-supplied test id. -/
theorem sample_is_global_block_position (results : List FIOResult)
    (tid : String) (s : ResultSummary)
    (h : s ∈ ExtractResultSummaries results tid) :
    s.TestID = tid ∧
    ∃ j r c, results.get? j = some r ∧ c ∈ r.ClientStats ∧
      (c.JobName != ("All clients")) = true ∧
      s = summaryOf tid ((j : Int) + 1) c ∧ s.Sample = (j : Int) + 1 := by
  rcases mem_extractFrom tid results 0 s h with ⟨j, r, c, hj, hc, hn, hs⟩
  have hj0 : (((0 + j : Nat) : Int) + 1) = ((j : Int) + 1) := by
    push_cast
    ring
  rw [hj0] at hs
  refine ⟨?_, j, r, c, hj, hc, hn, hs, ?_⟩
  · rw [hs]
    exact summaryOf_TestID tid ((j : Int) + 1) c
  · rw [hs]
    exact summaryOf_Sample tid ((j : Int) + 1) c

/-- Concrete run of sample_is_global_block_position on a one-block result
list. -/
theorem sample_is_global_block_position_witness :
    (summaryOf ("T") 1 clientC1) ∈ ExtractResultSummaries [fioResultC1] ("T")
    ∧ ((summaryOf ("T") 1 clientC1).TestID = "T" ∧
      ∃ j r c, [fioResultC1].get? j = some r ∧ c ∈ r.ClientStats ∧
        (c.JobName != ("All clients")) = true ∧
        summaryOf ("T") 1 clientC1 = summaryOf ("T") ((j : Int) + 1) c ∧
        (summaryOf ("T") 1 clientC1).Sample = (j : Int) + 1) :=
  ⟨by decide,
    sample_is_global_block_position [fioResultC1] ("T")
      (summaryOf ("T") 1 clientC1) (by decide)⟩

theorem extractFrom_length (tid : String) (i : Nat)
    (results : List FIOResult) :
    (extractFrom tid i results).length
      = (results.map (fun r =>
          (r.ClientStats.filter
            (fun c => c.JobName != ("All clients"))).length)).sum := by
  induction results generalizing i with
  | nil => simp [extractFrom]
  | cons r rest ih => simp [extractFrom, ih]

/-- C4 is false as stated: a worker stat with both read and write
operation counts positive yields exactly one summary row, not two. -/
theorem one_row_per_stat_counterexample :
    (ExtractResultSummaries [resultBothDirs] ("T")).length = 1
    ∧ (1 : Nat) ≠ 2 :=
  ⟨by decide, by decide⟩

/-- C4 (amended): for every decoded payload and every contained worker
stat other than the reserved aggregate entry the aggregator emits exactly
one summary row, whichever directions were exercised; a direction whose
operation count is not positive leaves its IOPS, bandwidth and latency
fields at their zero value rather than being omitted. -/
theorem extract_one_row_per_stat :
    (∀ results tid, (ExtractResultSummaries results tid).length
      = (results.map (fun r =>
          (r.ClientStats.filter
            (fun c => c.JobName != ("All clients"))).length)).sum)
    ∧ (∀ tid n c, ¬ 0 < c.Read.TotalIOs →
        (summaryOf tid n c).ReadIOPS = 0 ∧ (summaryOf tid n c).ReadBW = 0 ∧
        (summaryOf tid n c).ReadLatP50 = 0 ∧
        (summaryOf tid n c).ReadLatP95 = 0)
    ∧ (∀ tid n c, ¬ 0 < c.Write.TotalIOs →
        (summaryOf tid n c).WriteIOPS = 0 ∧
        (summaryOf tid n c).WriteBW = 0 ∧
        (summaryOf tid n c).WriteLatP50 = 0 ∧
        (summaryOf tid n c).WriteLatP95 = 0) := by
  refine ⟨fun results tid => extractFrom_length tid 0 results,
    fun tid n c h => ?_, fun tid n c h => ?_⟩
  · unfold summaryOf
    dsimp only
    rw [if_neg h]
    split <;> exact ⟨rfl, rfl, rfl, rfl⟩
  · unfold summaryOf
    dsimp only
    rw [if_neg h]
    split <;> exact ⟨rfl, rfl, rfl, rfl⟩

/-- Concrete run of extract_one_row_per_stat: the read-only stat leaves
every write-side field at zero in its single row. -/
theorem extract_one_row_per_stat_witness :
    ¬ 0 < clientReadOnly.Write.TotalIOs
    ∧ ((summaryOf ("T") 1 clientReadOnly).WriteIOPS = 0 ∧
      (summaryOf ("T") 1 clientReadOnly).WriteBW = 0 ∧
      (summaryOf ("T") 1 clientReadOnly).WriteLatP50 = 0 ∧
      (summaryOf ("T") 1 clientReadOnly).WriteLatP95 = 0) :=
  ⟨by decide, extract_one_row_per_stat.2.2 ("T") 1 clientReadOnly (by decide)⟩

theorem goMapInsert_update_keys (m : List (String × String)) (k v : String) :
    ((m.map (fun p => if p.1 == k then (k, v) else p)).map Prod.fst)
      = m.map Prod.fst := by
  rw [List.map_map]
  apply List.map_congr_left
  intro p _
  by_cases hpk : p.1 == k
  · simp only [Function.comp_apply, if_pos hpk]
    exact (eq_of_beq hpk).symm
  · simp only [Function.comp_apply, if_neg hpk]

theorem goMapInsert_keys (m : List (String × String)) (k v k0 : String) :
    (k0 ∈ (goMapInsert m k v).map Prod.fst)
      ↔ (k0 = k ∨ k0 ∈ m.map Prod.fst) := by
  unfold goMapInsert
  split
  · next hany =>
    rw [goMapInsert_update_keys]
    constructor
    · exact Or.inr
    · rintro (rfl | h)
      · rcases List.any_eq_true.mp hany with ⟨p, hp, hpk⟩
        exact List.mem_map.mpr ⟨p, hp, eq_of_beq hpk⟩
      · exact h
  · next hany =>
    rw [List.map_append, List.mem_append]
    constructor
    · rintro (h | h)
      · exact Or.inr h
      · exact Or.inl (by simpa using h)
    · rintro (rfl | h)
      · exact Or.inr (by simp)
      · exact Or.inl h

theorem goMapInsert_keys_nodup (m : List (String × String)) (k v : String)
    (h : (m.map Prod.fst).Nodup) :
    ((goMapInsert m k v).map Prod.fst).Nodup := by
  unfold goMapInsert
  split
  · next hany => rw [goMapInsert_update_keys]; exact h
  · next hany =>
    rw [List.map_append]
    refine List.Nodup.append h (List.nodup_singleton k) ?_
    intro a ha hb
    rcases List.mem_singleton.mp (by simpa using hb) with rfl
    rcases List.mem_map.mp ha with ⟨p, hp, hpk⟩
    apply hany
    exact List.any_eq_true.mpr ⟨p, hp, beq_iff_eq.mpr hpk⟩

theorem getPodIPsGo_keys (pods : List Pod) (m : List (String × String))
    (k0 : String) :
    k0 ∈ (getPodIPsGo m pods).map Prod.fst
      ↔ (k0 ∈ m.map Prod.fst
          ∨ ∃ p ∈ pods, p.podIP = k0 ∧ ¬ p.podIP = ("")
              ∧ ¬ p.nodeName = ("")) := by
  induction pods generalizing m with
  | nil => simp [getPodIPsGo]
  | cons p ps ih =>
    simp only [getPodIPsGo]
    split
    · next hp =>
      rw [ih, goMapInsert_keys]
      constructor
      · rintro ((rfl | h) | h)
        · exact Or.inr ⟨p, List.mem_cons_self p ps, rfl, hp.1, hp.2⟩
        · exact Or.inl h
        · rcases h with ⟨q, hq, hrest⟩
          exact Or.inr ⟨q, List.mem_cons_of_mem p hq, hrest⟩
      · rintro (h | ⟨q, hq, hqk, hq1, hq2⟩)
        · exact Or.inl (Or.inr h)
        · rcases List.mem_cons.mp hq with rfl | hq
          · exact Or.inl (Or.inl hqk.symm)
          · exact Or.inr ⟨q, hq, hqk, hq1, hq2⟩
    · next hp =>
      rw [ih]
      constructor
      · rintro (h | ⟨q, hq, hrest⟩)
        · exact Or.inl h
        · exact Or.inr ⟨q, List.mem_cons_of_mem p hq, hrest⟩
      · rintro (h | ⟨q, hq, hqk, hq1, hq2⟩)
        · exact Or.inl h
        · rcases List.mem_cons.mp hq with rfl | hq
          · exact absurd ⟨hq1, hq2⟩ hp
          · exact Or.inr ⟨q, hq, hqk, hq1, hq2⟩

theorem getPodIPsGo_nodup (pods : List Pod) (m : List (String × String))
    (h : (m.map Prod.fst).Nodup) :
    ((getPodIPsGo m pods).map Prod.fst).Nodup := by
  induction pods generalizing m with
  | nil => simpa [getPodIPsGo]
  | cons p ps ih =>
    simp only [getPodIPsGo]
    split
    · exact ih _ (goMapInsert_keys_nodup m p.podIP p.nodeName h)
    · exact ih _ h

/-- C10: after a successful readiness poll, the collected worker endpoint
map holds exactly the listed pods that have both a non-empty IP and a
non-empty node name, keyed by IP so that pods reporting duplicate
addresses collapse into one entry, and the phase step fails whenever this
map's size differs from the expected worker count even though the poll
itself succeeded. -/
theorem getPodIPs_collection_spec (pods : List Pod) (env : ClusterEnv)
    (cfg : Config) (ms : ManagerState) :
    ((GetPodIPs pods).map Prod.fst).Nodup
    ∧ (∀ ip, ip ∈ (GetPodIPs pods).map Prod.fst ↔
        ∃ p ∈ pods, p.podIP = ip ∧ ¬ p.podIP = ("") ∧ ¬ p.nodeName = (""))
    ∧ (WaitForPodsReady env cfg.workloadArgs.Servers
          cfg.workloadArgs.JobTimeout = Except.ok () →
        env.podsAtCollect = Except.ok pods →
        (GetPodIPs pods).length ≠ cfg.workloadArgs.Servers →
        ∃ e, waitForServers env cfg ms = (Except.error e, ms)) := by
  refine ⟨getPodIPsGo_nodup pods [] (by simp), fun ip => ?_, ?_⟩
  · rw [show GetPodIPs pods = getPodIPsGo [] pods from rfl, getPodIPsGo_keys]
    simp
  · intro hpoll hcollect hlen
    refine ⟨("expected ") ++ toString cfg.workloadArgs.Servers ++
      (" servers, got ") ++ toString (GetPodIPs pods).length, ?_⟩
    unfold waitForServers
    rw [hpoll, hcollect]
    simp only []
    rw [if_pos hlen]

/-- Concrete run of getPodIPs_collection_spec: two running pods sharing one
IP collapse to one endpoint entry, so a two-server run fails its defensive
size re-check although the poll succeeded. -/
theorem getPodIPs_collection_spec_witness :
    WaitForPodsReady envDup cfgTwo.workloadArgs.Servers
        cfgTwo.workloadArgs.JobTimeout = Except.ok ()
    ∧ envDup.podsAtCollect = Except.ok [podA, podDup]
    ∧ (GetPodIPs [podA, podDup]).length ≠ cfgTwo.workloadArgs.Servers
    ∧ ∃ e, waitForServers envDup cfgTwo msStartingServers
        = (Except.error e, msStartingServers) :=
  ⟨rfl, rfl, by decide,
    (getPodIPs_collection_spec [podA, podDup] envDup cfgTwo
        msStartingServers).2.2 rfl rfl (by decide)⟩

/-- C3 is false as stated: the readiness poll observes the expected count
of running workers within the timeout, yet the run neither transitions to
StartingClient (the collection listing races and yields an endpoint with
an empty IP, failing the size re-check) nor transitions to Failed — the
state is left unchanged at StartingServers while the error is returned. -/
theorem startingClient_iff_poll_counterexample :
    WaitForPodsReady envCollectRace cfgOne.workloadArgs.Servers
        cfgOne.workloadArgs.JobTimeout = Except.ok ()
    ∧ (waitForServers envCollectRace cfgOne msStartingServers).1
      = Except.error ("expected 1 servers, got 0")
    ∧ (waitForServers envCollectRace cfgOne msStartingServers).2.state
      = StateStartingServers
    ∧ StateStartingServers ≠ StateStartingClient
    ∧ StateStartingServers ≠ StateFailed :=
  ⟨rfl, rfl, rfl, by decide, by decide⟩

/-- C3 (amended): a run in StartingServers transitions to StartingClient
exactly when the readiness poll succeeds within the configured timeout AND
the subsequently collected endpoint map has exactly the expected number of
entries; on any other outcome waitForServers returns an error and leaves
the manager state unchanged — in particular the state is never set to
Failed. -/
theorem waitForServers_startingClient_iff (env : ClusterEnv) (cfg : Config)
    (ms : ManagerState) (h : ms.state = StateStartingServers) :
    ((waitForServers env cfg ms).2.state = StateStartingClient ↔
      (WaitForPodsReady env cfg.workloadArgs.Servers
          cfg.workloadArgs.JobTimeout = Except.ok ()
        ∧ ∃ pods, env.podsAtCollect = Except.ok pods
            ∧ (GetPodIPs pods).length = cfg.workloadArgs.Servers))
    ∧ (∀ e, (waitForServers env cfg ms).1 = Except.error e →
        (waitForServers env cfg ms).2 = ms)
    ∧ (waitForServers env cfg ms).2.state ≠ StateFailed := by
  unfold waitForServers
  split
  · next e heq =>
    refine ⟨⟨fun hst => ?_, fun hr => ?_⟩, fun e2 _ => rfl, ?_⟩
    · exact absurd (h.symm.trans hst) (by decide)
    · rw [heq] at hr
      exact absurd hr.1 (by simp)
    · rw [h]; decide
  · next u heq =>
    split
    · next e heq2 =>
      refine ⟨⟨fun hst => ?_, fun hr => ?_⟩, fun e2 _ => rfl, ?_⟩
      · exact absurd (h.symm.trans hst) (by decide)
      · rcases hr.2 with ⟨pods, hp, _⟩
        rw [heq2] at hp
        exact absurd hp (by simp)
      · rw [h]; decide
    · next pods heq2 =>
      dsimp only
      split
      · next hlen =>
        refine ⟨⟨fun hst => ?_, fun hr => ?_⟩, fun e2 _ => rfl, ?_⟩
        · exact absurd (h.symm.trans hst) (by decide)
        · rcases hr.2 with ⟨pods2, hp, hl⟩
          rw [heq2] at hp
          cases hp
          exact (hlen hl).elim
        · rw [h]; decide
      · next hlen =>
        refine ⟨⟨fun _ => ?_, fun _ => rfl⟩, fun e2 he => ?_, ?_⟩
        · refine ⟨?_, pods, heq2, not_not.mp hlen⟩
          rw [heq]
        · exact absurd he (by simp)
        · exact (by decide : StateStartingClient ≠ StateFailed)

/-- Concrete run of waitForServers_startingClient_iff on the healthy
one-server cluster. -/
theorem waitForServers_startingClient_iff_witness :
    msStartingServers.state = StateStartingServers
    ∧ (((waitForServers goodClusterEnv cfgOne msStartingServers).2.state
          = StateStartingClient ↔
        (WaitForPodsReady goodClusterEnv cfgOne.workloadArgs.Servers
            cfgOne.workloadArgs.JobTimeout = Except.ok ()
          ∧ ∃ pods, goodClusterEnv.podsAtCollect = Except.ok pods
              ∧ (GetPodIPs pods).length = cfgOne.workloadArgs.Servers))
      ∧ (∀ e, (waitForServers goodClusterEnv cfgOne msStartingServers).1
            = Except.error e →
          (waitForServers goodClusterEnv cfgOne msStartingServers).2
            = msStartingServers)
      ∧ (waitForServers goodClusterEnv cfgOne msStartingServers).2.state
          ≠ StateFailed) :=
  ⟨rfl, waitForServers_startingClient_iff goodClusterEnv cfgOne
    msStartingServers rfl⟩

theorem deployInfrastructure_state (env : ClusterEnv) (tmpl : TemplateEnv)
    (cfg : Config) (ms : ManagerState) :
    (deployInfrastructure env tmpl cfg ms).2.state = ms.state ∨
    (deployInfrastructure env tmpl cfg ms).2.state = StateStartingServers := by
  unfold deployInfrastructure
  split
  · exact Or.inl rfl
  · exact Or.inr rfl

theorem waitForServers_state (env : ClusterEnv) (cfg : Config)
    (ms : ManagerState) :
    (waitForServers env cfg ms).2.state = ms.state ∨
    (waitForServers env cfg ms).2.state = StateStartingClient := by
  unfold waitForServers
  split
  · exact Or.inl rfl
  · split
    · exact Or.inl rfl
    · dsimp only
      split
      · exact Or.inl rfl
      · exact Or.inr rfl

theorem createHostsConfigMap_state (env : ClusterEnv) (tmpl : TemplateEnv)
    (cfg : Config) (ms : ManagerState) :
    (createHostsConfigMap env tmpl cfg ms).2 = ms := by
  unfold createHostsConfigMap
  dsimp only
  split
  · rfl
  · split <;> rfl

theorem runPrefill_state (env : ClusterEnv) (tmpl : TemplateEnv)
    (cfg : Config) (ms : ManagerState) :
    (runPrefill env tmpl cfg ms).2.state = StatePrefilling ∨
    (runPrefill env tmpl cfg ms).2.state = StateStartBenchmark := by
  unfold runPrefill
  dsimp only
  split
  · exact Or.inl rfl
  · split
    · exact Or.inl rfl
    · split
      · exact Or.inl rfl
      · exact Or.inr rfl

theorem runBenchmarkClient_state (env : ClusterEnv) (tmpl : TemplateEnv)
    (cfg : Config) (ms : ManagerState) :
    (runBenchmarkClient env tmpl cfg ms).2.state = ms.state ∨
    (runBenchmarkClient env tmpl cfg ms).2.state = StateStartBenchmark ∨
    (runBenchmarkClient env tmpl cfg ms).2.state = StateRunning := by
  unfold runBenchmarkClient
  cases hb : cfg.workloadArgs.Prefill with
  | true =>
    dsimp only
    rw [if_pos rfl]
    split
    · exact Or.inl rfl
    · split
      · exact Or.inl rfl
      · exact Or.inr (Or.inr rfl)
  | false =>
    dsimp only
    rw [if_neg (by simp)]
    split
    · exact Or.inr (Or.inl rfl)
    · split
      · exact Or.inr (Or.inl rfl)
      · exact Or.inr (Or.inr rfl)

theorem waitForCompletion_state (env : ClusterEnv) (cfg : Config)
    (ms : ManagerState) :
    (waitForCompletion env cfg ms).2 = ms := by
  unfold waitForCompletion
  split <;> rfl

theorem deployInfrastructure_ne_failed (env : ClusterEnv)
    (tmpl : TemplateEnv) (cfg : Config) (ms : ManagerState)
    (h : ms.state ≠ StateFailed) :
    (deployInfrastructure env tmpl cfg ms).2.state ≠ StateFailed := by
  rcases deployInfrastructure_state env tmpl cfg ms with h1 | h1 <;> rw [h1]
  · exact h
  · decide

theorem waitForServers_ne_failed (env : ClusterEnv) (cfg : Config)
    (ms : ManagerState) (h : ms.state ≠ StateFailed) :
    (waitForServers env cfg ms).2.state ≠ StateFailed := by
  rcases waitForServers_state env cfg ms with h1 | h1 <;> rw [h1]
  · exact h
  · decide

theorem createHostsConfigMap_ne_failed (env : ClusterEnv)
    (tmpl : TemplateEnv) (cfg : Config) (ms : ManagerState)
    (h : ms.state ≠ StateFailed) :
    (createHostsConfigMap env tmpl cfg ms).2.state ≠ StateFailed := by
  rw [createHostsConfigMap_state env tmpl cfg ms]
  exact h

theorem prefillStep_ne_failed (env : ClusterEnv) (tmpl : TemplateEnv)
    (cfg : Config) (ms : ManagerState) (h : ms.state ≠ StateFailed) :
    ((if cfg.workloadArgs.Prefill then runPrefill env tmpl cfg ms
      else (Except.ok (), ms)) :
        Except String Unit × ManagerState).2.state ≠ StateFailed := by
  split
  · rcases runPrefill_state env tmpl cfg ms with h1 | h1 <;> rw [h1] <;> decide
  · exact h

theorem runBenchmarkClient_ne_failed (env : ClusterEnv) (tmpl : TemplateEnv)
    (cfg : Config) (ms : ManagerState) (h : ms.state ≠ StateFailed) :
    (runBenchmarkClient env tmpl cfg ms).2.state ≠ StateFailed := by
  rcases runBenchmarkClient_state env tmpl cfg ms with h1 | h1 | h1 <;> rw [h1]
  · exact h
  · decide
  · decide

theorem waitForCompletion_ne_failed (env : ClusterEnv) (cfg : Config)
    (ms : ManagerState) (h : ms.state ≠ StateFailed) :
    (waitForCompletion env cfg ms).2.state ≠ StateFailed := by
  rw [waitForCompletion_state env cfg ms]
  exact h

/-- C2 is false as stated: when a step of RunBenchmark fails (here the
very first render), the error is returned while the phase is still
Building — the phase is not set to Failed before returning, and
StateFailed is assigned by no step of the manager. -/
theorem failed_phase_not_set_counterexample :
    (RunBenchmark goodClusterEnv tmplRenderFails cfgOne).1
      = Except.error
        ("failed to deploy infrastructure: failed to render configmap: boom")
    ∧ (RunBenchmark goodClusterEnv tmplRenderFails cfgOne).2.state
        = StateBuilding
    ∧ StateBuilding ≠ StateFailed :=
  ⟨rfl, rfl, by decide⟩

/-- C2 (amended): on a fatal error RunBenchmark returns the error to the
caller with the phase left exactly as the failing step left it; the
Failed state is never assigned, so the final phase of any run — failed or
successful — is never StateFailed. -/
theorem runBenchmark_never_failed (env : ClusterEnv) (tmpl : TemplateEnv)
    (cfg : Config) :
    (RunBenchmark env tmpl cfg).2.state ≠ StateFailed := by
  unfold RunBenchmark
  split
  · next e ms heq =>
    have h1 := deployInfrastructure_ne_failed env tmpl cfg newManagerState
      (by decide)
    rw [heq] at h1
    exact h1
  · next u ms1 heq1 =>
    have h1 := deployInfrastructure_ne_failed env tmpl cfg newManagerState
      (by decide)
    rw [heq1] at h1
    split
    · next e ms heq2 =>
      have h2 := waitForServers_ne_failed env cfg ms1 h1
      rw [heq2] at h2
      exact h2
    · next u2 ms2 heq2 =>
      have h2 := waitForServers_ne_failed env cfg ms1 h1
      rw [heq2] at h2
      split
      · next e ms heq3 =>
        have h3 := createHostsConfigMap_ne_failed env tmpl cfg ms2 h2
        rw [heq3] at h3
        exact h3
      · next u3 ms3 heq3 =>
        have h3 := createHostsConfigMap_ne_failed env tmpl cfg ms2 h2
        rw [heq3] at h3
        split
        · next e ms heq4 =>
          have h4 := prefillStep_ne_failed env tmpl cfg ms3 h3
          rw [heq4] at h4
          exact h4
        · next u4 ms4 heq4 =>
          have h4 := prefillStep_ne_failed env tmpl cfg ms3 h3
          rw [heq4] at h4
          split
          · next e ms heq5 =>
            have h5 := runBenchmarkClient_ne_failed env tmpl cfg ms4 h4
            rw [heq5] at h5
            exact h5
          · next u5 ms5 heq5 =>
            have h5 := runBenchmarkClient_ne_failed env tmpl cfg ms4 h4
            rw [heq5] at h5
            split
            · next e ms heq6 =>
              have h6 := waitForCompletion_ne_failed env cfg ms5 h5
              rw [heq6] at h6
              exact h6
            · next u6 ms6 heq6 =>
              exact (by decide : StateCompleted ≠ StateFailed)
